import Mathlib

/-
Verification of the nooble11 multi-service RAG backend against its
natural-language specification.  The Python sources are shallowly embedded:
pure fragments become Lean functions, stateful handlers become explicit
state-passing functions, fallible calls return Except, and the outcomes of
external collaborators (the vector store driver, the relational store, the
broker) are passed in as explicit parameters so each code path can be
examined on concrete inputs.
-/

namespace Nooble

/- ===================== shared data model ===================== -/

/-- Task lifecycle statuses of the ingestion pipeline
(src/ingestion_service/models, IngestionStatus). -/
inductive IngStatus
  | processing
  | chunking
  | embedding
  | storing
  | completed
  | failed
  deriving DecidableEq, Repr

/-- Mutable per-task record kept by the ingestion orchestrator
(the task dict created in IngestionService.ingest_document).  The stored and
processed counters use Int because Python ints are unbounded and the code
can produce negative values. -/
structure TaskState where
  status : IngStatus
  percentage : Int
  total_chunks : Nat
  processed_chunks : Int
  error : Option String
  deriving DecidableEq, Repr

/-- Task record as created at admission time (status PROCESSING, counters 0). -/
def initialTask : TaskState :=
  ⟨IngStatus.processing, 0, 0, 0, none⟩

/- ===================== C4: QdrantHandler.store_chunks ===================== -/

/-- Chunk as seen by store_chunks: only the id and the embedding matter for
the counting logic.  The Python field is Optional[List[float]] and the check
is a falsiness test, so a missing embedding and an empty list behave the
same; both are modelled by the empty list. -/
structure ChunkEmb where
  chunk_id : String
  embedding : List Int
  deriving DecidableEq, Repr

/-- Result dict returned by store_chunks. -/
structure StoreResult where
  stored : Int
  failed : Nat
  failed_ids : List String
  deriving DecidableEq, Repr

/-- Embedding of QdrantHandler.store_chunks
(src/ingestion_service/handler/qdrant_handler.py, lines 81-157).
Chunks without an embedding go to failed_chunks; the remaining chunks become
points; a failing upsert extends failed_chunks with every point id; the
returned stored count is len(points) - len(failed_chunks).  upsertOk is the
outcome of the qdrant upsert call. -/
def storeChunks (chunks : List ChunkEmb) (upsertOk : Bool) : StoreResult :=
  if chunks = [] then ⟨0, 0, []⟩
  else
    let noEmb := (chunks.filter (fun c => c.embedding = [])).map (fun c => c.chunk_id)
    let points := chunks.filter (fun c => c.embedding ≠ [])
    let failed :=
      if points ≠ [] ∧ upsertOk = false then
        noEmb ++ points.map (fun c => c.chunk_id)
      else noEmb
    ⟨(points.length : Int) - (failed.length : Int), failed.length, failed⟩

/-- C4 failing input: one chunk with an embedding and one without. -/
def c4Chunks : List ChunkEmb :=
  [⟨"c1", [1]⟩, ⟨"c2", []⟩]

/- ===================== C7: agent-list update operations ===================== -/

/-- Python list(set(l)): duplicates are removed (the iteration order of a
Python set is unspecified; every statement about the result is made at
membership level). -/
def pySetList : List String → List String
  | [] => []
  | x :: xs =>
      let r := pySetList xs
      if x ∈ r then r else x :: r

/-- Recomputation of the agent list for one chunk or one metadata row, as
implemented identically in QdrantHandler.update_chunk_agents
(src/ingestion_service/handler/qdrant_handler.py, lines 287-294) and in
IngestionService.update_document_agents
(src/ingestion_service/services/ingestion_service.py, lines 671-676):
set replaces the list, add is list(set(current + arg)), remove filters out
the members of arg.  An unknown operation raises (none). -/
def applyAgentsOp (op : String) (current arg : List String) : Option (List String) :=
  if op = "set" then some arg
  else if op = "add" then some (pySetList (current ++ arg))
  else if op = "remove" then some (current.filter (fun a => a ∉ arg))
  else none

/-- Sequential composition of two agent updates on one list. -/
def applyAgentsOp2 (op1 : String) (arg1 : List String) (op2 : String)
    (arg2 : List String) (current : List String) : Option (List String) :=
  (applyAgentsOp op1 current arg1).bind (fun l => applyAgentsOp op2 l arg2)

/- ===================== C2, C3: vector search filters ===================== -/

/-- Match condition of a qdrant payload filter.  value models MatchValue and
anyOfList models MatchAny, whose any field is list-typed. -/
inductive MatchCond
  | value (v : String)
  | anyOfList (vs : List String)
  deriving DecidableEq, Repr

/-- Argument handed to the MatchAny constructor at a call site: either a
list, or a bare string (as in search_by_agent). -/
inductive PyAnyArg
  | ofList (vs : List String)
  | ofStr (v : String)
  deriving DecidableEq, Repr

/-- Construction of MatchAny under the qdrant-client pydantic model: the any
field is list-typed, so a list is accepted while a bare string fails
validation and raises at construction time. -/
def mkMatchAny : PyAnyArg → Except String MatchCond
  | PyAnyArg.ofList vs => Except.ok (MatchCond.anyOfList vs)
  | PyAnyArg.ofStr _ =>
      Except.error "ValidationError: MatchAny.any value is not a valid list"

/-- One FieldCondition of a filter. -/
structure FieldCond where
  key : String
  cond : MatchCond
  deriving DecidableEq, Repr

/-- Stored vector point payload (the fields the filters consult). -/
structure VPayload where
  tenant_id : String
  collection_id : String
  agent_ids : List String
  document_id : String
  content : String
  deriving DecidableEq, Repr

/-- A scored point of the physical collection.  Scores are abstracted to Int:
the claims under study only use the ordering of scores. -/
structure VPoint where
  id : String
  score : Int
  payload : VPayload
  deriving DecidableEq, Repr

/-- Whether one payload satisfies one condition (qdrant filter semantics for
the keys this codebase uses: MatchValue is equality, MatchAny on the
agent_ids array is intersection, MatchAny on a scalar key is membership). -/
def condMatches (p : VPayload) (c : FieldCond) : Bool :=
  match c.cond with
  | MatchCond.value v =>
      if c.key = "tenant_id" then p.tenant_id = v
      else if c.key = "collection_id" then p.collection_id = v
      else if c.key = "document_id" then p.document_id = v
      else false
  | MatchCond.anyOfList vs =>
      if c.key = "agent_ids" then vs.any (fun v => v ∈ p.agent_ids)
      else if c.key = "collection_id" then p.collection_id ∈ vs
      else if c.key = "document_id" then p.document_id ∈ vs
      else false

/-- Score threshold test (score_threshold parameter; none when absent). -/
def scorePasses (threshold : Option Int) (s : Int) : Bool :=
  match threshold with
  | some t => t ≤ s
  | none => true

/-- Insertion into a list kept sorted by descending score. -/
def insertScoreDesc (x : VPoint) : List VPoint → List VPoint
  | [] => [x]
  | y :: ys => if y.score ≤ x.score then x :: y :: ys else y :: insertScoreDesc x ys

/-- Sort by descending score (the order qdrant returns hits in). -/
def sortScoreDesc : List VPoint → List VPoint
  | [] => []
  | x :: xs => insertScoreDesc x (sortScoreDesc xs)

/-- The vector store driver search surface: filter by the must conditions and
the optional score threshold, order by score descending, return at most
limit hits. -/
def qdrantSearch (store : List VPoint) (must : List FieldCond) (limit : Nat)
    (threshold : Option Int) : List VPoint :=
  (sortScoreDesc (store.filter (fun p =>
    must.all (condMatches p.payload) && scorePasses threshold p.score))).take limit

/-- The must conditions built by QdrantClient.search of the query service
(src/query_service/clients/qdrant_client.py, lines 62-95): tenant_id
equality, agent membership, optionally document_id; the collection_id
condition is commented out in the source (TEMPORALMENTE DESACTIVADO) and is
therefore never added. -/
def qsMustConds (tenant_id agent_id : String) (document_ids : List String) :
    List FieldCond :=
  let base := [⟨"tenant_id", MatchCond.value tenant_id⟩,
               ⟨"agent_ids", MatchCond.anyOfList [agent_id]⟩]
  if document_ids ≠ [] then
    base ++ [⟨"document_id", MatchCond.anyOfList document_ids⟩]
  else base

/-- Embedding of QdrantClient.search of the query service
(src/query_service/clients/qdrant_client.py, lines 37-130).  A falsy
agent_id raises ValueError.  collection_ids is accepted but unused because
the collection filter is disabled in the source.  The returned hits are the
driver hits re-sorted by score descending and truncated to top_k. -/
def qsSearch (store : List VPoint) (tenant_id agent_id : String)
    (collection_ids : List String) (document_ids : List String)
    (top_k : Nat) (threshold : Int) : Except String (List VPoint) :=
  if agent_id = "" then
    Except.error "agent_id is required for vector search"
  else
    Except.ok ((sortScoreDesc (qdrantSearch store
      (qsMustConds tenant_id agent_id document_ids) top_k (some threshold))).take top_k)

/-- The must-condition construction of QdrantHandler.search_by_agent
(src/ingestion_service/handler/qdrant_handler.py, lines 212-231): tenant_id
equality, then the agent condition built as MatchAny(any=agent_id) with the
bare agent_id string — which the list-typed MatchAny model refuses, raising
ValidationError before the optional collection_id condition (appended for a
non-empty collection_ids) is ever reached. -/
def sbaMustConds (tenant_id agent_id : String) (collection_ids : List String) :
    Except String (List FieldCond) :=
  match mkMatchAny (PyAnyArg.ofStr agent_id) with
  | Except.error e => Except.error e
  | Except.ok agentCond =>
      let base := [⟨"tenant_id", MatchCond.value tenant_id⟩,
                   ⟨"agent_ids", agentCond⟩]
      Except.ok (if collection_ids ≠ [] then
        base ++ [⟨"collection_id", MatchCond.anyOfList collection_ids⟩]
      else base)

/-- Embedding of QdrantHandler.search_by_agent
(src/ingestion_service/handler/qdrant_handler.py, lines 200-248).  The
function has no try/except, so the ValidationError raised while building the
filter propagates to the caller; only a successfully built filter would
reach the driver search. -/
def searchByAgent (store : List VPoint) (tenant_id agent_id : String)
    (collection_ids : List String) (limit : Nat) : Except String (List VPoint) :=
  match sbaMustConds tenant_id agent_id collection_ids with
  | Except.error e => Except.error e
  | Except.ok conds => Except.ok (qdrantSearch store conds limit none)

/-- C3 counterexample point: lives in virtual collection "other". -/
def c3Stray : VPoint :=
  ⟨"p1", 1, ⟨"t", "other", ["a"], "d1", "hello"⟩⟩

/- ===================== C1: ingestion happy path ===================== -/

/-- Python argument binding for a call to a function whose parameters all
lack defaults: the first npos parameters are bound positionally, the rest
must be supplied by matching keywords, keywords must name parameters and may
not rebind a positionally bound one.  A false result is a TypeError at call
time. -/
def pyBindOk (params : List String) (npos : Nat) (kws : List String) : Bool :=
  decide (npos ≤ params.length) &&
  kws.all (fun k => params.contains k) &&
  ((params.take npos).all (fun p => !kws.contains p)) &&
  ((params.drop npos).all (fun p => kws.contains p))

/-- Parameters (after self) of DocumentHandler.process_document
(src/ingestion_service/handler/document_handler.py, lines 62-69); all five
are required. -/
def processDocumentParams : List String :=
  ["request", "document_id", "tenant_id", "collection_id", "agent_ids"]

/-- The call site in IngestionService._process_document_async passes exactly
two positional arguments and no keywords
(src/ingestion_service/services/ingestion_service.py, lines 406-409). -/
def processDocumentCallPositional : Nat := 2

/-- Keywords used at the process_document call site (none). -/
def processDocumentCallKeywords : List String := []

/-- Parameters (after self) of EmbeddingHandler.generate_embeddings
(src/ingestion_service/handler/embedding_handler.py, lines 28-35); all five
are required. -/
def generateEmbeddingsParams : List String :=
  ["chunks", "tenant_id", "agent_id", "task_id", "rag_config"]

/-- Keywords used at the generate_embeddings call site in
_process_document_async (src/ingestion_service/services/ingestion_service.py,
lines 436-442): agent_ids is passed although the parameter is agent_id. -/
def generateEmbeddingsCallKeywords : List String :=
  ["chunks", "tenant_id", "agent_ids", "task_id", "rag_config"]

/-- Admission-time response fields of IngestionService.ingest_document
(src/ingestion_service/services/ingestion_service.py, lines 292-356):
collection_id is taken from the request when truthy, otherwise generated as
col_ followed by eight hex digits of a fresh uuid; the response status is
PROCESSING. -/
structure AdmissionResponse where
  status : IngStatus
  collection_id : String
  deriving DecidableEq, Repr

/-- Response of ingest_document given the requested collection_id (none or
the empty string are falsy) and the fresh 8-hex-digit uuid slice. -/
def ingestDocumentResponse (requested : Option String) (freshHex8 : String) :
    AdmissionResponse :=
  ⟨IngStatus.processing,
    match requested with
    | some c => if c = "" then "col_" ++ freshHex8 else c
    | none => "col_" ++ freshHex8⟩

/-- Embedding of IngestionService._process_document_async
(src/ingestion_service/services/ingestion_service.py, lines 395-452).  The
progress steps mirror the source; the two inter-handler calls are guarded by
the Python binding check, and any exception lands in the except branch that
writes status FAILED with percentage 0 and the error message.  parsedChunks
is the number of chunks the parser would yield. -/
def processDocumentAsync (task : TaskState) (parsedChunks : Nat) : TaskState :=
  let t1 : TaskState := { task with status := IngStatus.processing, percentage := 10 }
  if pyBindOk processDocumentParams processDocumentCallPositional processDocumentCallKeywords then
    let t2 : TaskState :=
      { t1 with total_chunks := parsedChunks, status := IngStatus.chunking, percentage := 30 }
    let t3 : TaskState := { t2 with status := IngStatus.embedding, percentage := 50 }
    if pyBindOk generateEmbeddingsParams 0 generateEmbeddingsCallKeywords then t3
    else
      { t3 with
          status := IngStatus.failed
          percentage := 0
          error := some "TypeError: generate_embeddings got an unexpected keyword argument agent_ids" }
  else
    { t1 with
        status := IngStatus.failed
        percentage := 0
        error := some "TypeError: process_document missing 3 required positional arguments" }

/- ===================== C5: embedding callback and metadata persistence ===================== -/

/-- Embedding of IngestionService._persist_document_metadata
(src/ingestion_service/services/ingestion_service.py, lines 526-589): the
whole body sits in a try whose except only logs, so a failing documents_rag
insert (insertRes) is swallowed and the function returns normally. -/
def persistDocumentMetadata (insertRes : Except String Unit) : Except String Unit :=
  match insertRes with
  | Except.ok _ => Except.ok ()
  | Except.error _ => Except.ok ()

/-- Embedding of IngestionService.handle_embedding_callback
(src/ingestion_service/services/ingestion_service.py, lines 454-524) for a
task found in the in-process map: progress STORING 80, store_chunks
(storeRes), processed_chunks := stored, metadata persistence (insertRes),
then COMPLETED 100; any exception lands in the except branch that writes
FAILED with percentage 80. -/
def handleEmbeddingCallback (task : TaskState) (storeRes : Except String StoreResult)
    (insertRes : Except String Unit) : TaskState :=
  let t1 : TaskState := { task with status := IngStatus.storing, percentage := 80 }
  match storeRes with
  | Except.error e => { t1 with status := IngStatus.failed, percentage := 80, error := some e }
  | Except.ok res =>
      let t2 : TaskState := { t1 with processed_chunks := res.stored }
      match persistDocumentMetadata insertRes with
      | Except.error e => { t2 with status := IngStatus.failed, percentage := 80, error := some e }
      | Except.ok _ => { t2 with status := IngStatus.completed, percentage := 100 }

/-- Task state at the time the embedding callback arrives on the C5 path. -/
def c5Task : TaskState :=
  ⟨IngStatus.embedding, 50, 1, 0, none⟩

/- ===================== C6: agent config normalization ===================== -/

/-- Python value as stored in a config dict; falsiness follows Python. -/
inductive PyVal
  | vStr (s : String)
  | vList (l : List String)
  | vInt (n : Int)
  deriving DecidableEq, Repr

/-- Python falsiness of a config value. -/
def pyFalsy : PyVal → Bool
  | PyVal.vStr s => s = ""
  | PyVal.vList l => l = []
  | PyVal.vInt n => n = 0

/-- Dict lookup on an association-list model of a Python dict. -/
def lookupKey : List (String × PyVal) → String → Option PyVal
  | [], _ => none
  | kv :: rest, k => if kv.1 = k then some kv.2 else lookupKey rest k

/-- Dict assignment on the association-list model. -/
def setKey : List (String × PyVal) → String → PyVal → List (String × PyVal)
  | [], k, v => [(k, v)]
  | kv :: rest, k, v => if kv.1 = k then (k, v) :: rest else kv :: setKey rest k v

/-- Whitelisted query_config keys of SupabaseClient._normalize_query_config
(src/common/supabase/client.py, lines 211-216). -/
def queryConfigAllowed : List String :=
  ["model", "temperature", "max_tokens", "top_p",
   "frequency_penalty", "presence_penalty", "stop",
   "max_context_tokens", "enable_parallel_search",
   "timeout", "max_retries", "system_prompt_template"]

/-- The Python test from _normalize_query_config: the key is absent or its
value falsy. -/
def needsPromptDefault (normalized : List (String × PyVal)) : Bool :=
  match lookupKey normalized "system_prompt_template" with
  | some v => pyFalsy v
  | none => true

/-- Embedding of SupabaseClient._normalize_query_config
(src/common/supabase/client.py, lines 209-220): whitelist the keys, then
when the template is absent or falsy assign system_prompt or the empty
string. -/
def normalizeQueryConfig (cfg : List (String × PyVal)) (system_prompt : Option String) :
    List (String × PyVal) :=
  let normalized := cfg.filter (fun kv => queryConfigAllowed.contains kv.1)
  if needsPromptDefault normalized then
    setKey normalized "system_prompt_template" (PyVal.vStr (system_prompt.getD ""))
  else normalized

/-- Whitelisted rag_config keys of SupabaseClient._normalize_rag_config
(src/common/supabase/client.py, lines 224-228). -/
def ragConfigAllowed : List String :=
  ["collection_ids", "document_ids", "embedding_model",
   "embedding_dimensions", "encoding_format", "top_k",
   "similarity_threshold", "timeout", "max_retries", "max_text_length"]

/-- The Python test from _normalize_rag_config: collection_ids absent or
falsy. -/
def needsColsDefault (normalized : List (String × PyVal)) : Bool :=
  match lookupKey normalized "collection_ids" with
  | some v => pyFalsy v
  | none => true

/-- Python default_collections or a singleton default. -/
def pyOrDefaultCols (dc : Option (List String)) : List String :=
  match dc with
  | some l => if l = [] then ["default"] else l
  | none => ["default"]

/-- Embedding of SupabaseClient._normalize_rag_config
(src/common/supabase/client.py, lines 222-234): whitelist the keys, default
collection_ids when absent or falsy, default encoding_format when the key is
absent. -/
def normalizeRagConfig (cfg : List (String × PyVal)) (default_collections : Option (List String)) :
    List (String × PyVal) :=
  let normalized := cfg.filter (fun kv => ragConfigAllowed.contains kv.1)
  let normalized2 :=
    if needsColsDefault normalized then
      setKey normalized "collection_ids" (PyVal.vList (pyOrDefaultCols default_collections))
    else normalized
  if (lookupKey normalized2 "encoding_format").isNone then
    setKey normalized2 "encoding_format" (PyVal.vStr "float")
  else normalized2

/-- The stock system prompt of ConfigHandler._get_default_configs
(src/orchestrator_service/handlers/config_handler.py, lines 177-186). -/
def defaultQueryPromptTemplate : String := "Eres un asistente útil."

/-- The default collection list of ConfigHandler._get_default_configs. -/
def defaultConfigCollectionIds : List String := ["default"]

/- ===================== C8: chat orchestration ===================== -/

/-- The fields of a dispatched DomainAction relevant to the chat claim. -/
structure ChatAction where
  action_type : String
  callback_action_type : Option String
  task_id : String
  deriving DecidableEq, Repr

/-- Observable side effects of the chat handler, in order of occurrence. -/
inductive OrchStep
  | wsSend (session_id : String) (message_type : String) (mode : String) (task_id : String)
  | busSend (action : ChatAction) (callback_event : String)
  deriving DecidableEq, Repr

/-- The mode chosen by ChatHandler.process_chat_message: advance when the
request carries tools (truthy list), else simple
(src/orchestrator_service/handlers/chat_handler.py, line 91). -/
def chatMode (tools : List String) : String :=
  if tools ≠ [] then "advance" else "simple"

/-- Embedding of ExecutionClient.execute_chat
(src/orchestrator_service/clients/execution_client.py, lines 34-80): one
action with action_type execution.chat.<mode> and callback_action_type
orchestrator.chat.response is sent with callback event
orchestrator.chat.response. -/
def executeChatSteps (task_id mode : String) : List OrchStep :=
  [OrchStep.busSend
    ⟨"execution.chat." ++ mode, some "orchestrator.chat.response", task_id⟩
    "orchestrator.chat.response"]

/-- Embedding of the dispatch part of ChatHandler.process_chat_message
(src/orchestrator_service/handlers/chat_handler.py, lines 90-112): choose
the mode, send the chat_processing progress event to the session, then hand
the request to ExecutionClient.execute_chat. -/
def processChatMessage (session_id task_id : String) (tools : List String) :
    List OrchStep :=
  OrchStep.wsSend session_id "chat_processing" (chatMode tools) task_id ::
    executeChatSteps task_id (chatMode tools)

/- ===================== C9: collection consistency check ===================== -/

/-- Existing documents_rag row fields consulted by the check. -/
structure RagRow where
  embedding_model : String
  embedding_dimensions : Int
  deriving DecidableEq, Repr

/-- Requested rag config fields consulted by the check. -/
structure RagCfgReq where
  embedding_model : String
  embedding_dimensions : Int
  deriving DecidableEq, Repr

/-- Prefix test on character lists. -/
def leadsChars : List Char → List Char → Bool
  | [], _ => true
  | _ :: _, [] => false
  | p :: ps, c :: cs => p = c && leadsChars ps cs

/-- Substring test on character lists. -/
def containsChars (pat : List Char) : List Char → Bool
  | [] => leadsChars pat []
  | c :: cs => leadsChars pat (c :: cs) || containsChars pat cs

/-- Python substring membership: pat in s. -/
def pyInStr (pat s : String) : Bool :=
  containsChars pat.toList s.toList

/-- The marker the except branch of _validate_collection_consistency greps
for (src/ingestion_service/services/ingestion_service.py, line 391). -/
def mismatchMarker : String := "No se pueden mezclar modelos"

/-- The ValueError message raised on a model mismatch
(src/ingestion_service/services/ingestion_service.py, lines 385-388). -/
def mismatchMessage (collection_id existing_model : String) (existing_dims : Int) : String :=
  "Collection \x27" ++ collection_id ++ "\x27 ya usa modelo \x27" ++ existing_model ++
    "\x27 con " ++ toString existing_dims ++ " dimensiones. " ++ mismatchMarker ++ "."

/-- Whether an exception message would re-raise in the except branch. -/
def containsMarker (s : String) : Bool :=
  pyInStr mismatchMarker s

/-- Embedding of IngestionService._validate_collection_consistency
(src/ingestion_service/services/ingestion_service.py, lines 358-393).
lookupRes is the outcome of the documents_rag select: an exception message,
or the first row for (tenant_id, collection_id) when one exists.  The body
raises on a model or dimension mismatch; the surrounding except re-raises
only when the message carries the marker, otherwise it logs a warning and
returns normally (admission proceeds). -/
def validateCollectionConsistency (lookupRes : Except String (Option RagRow))
    (cfg : RagCfgReq) (collection_id : String) : Except String Unit :=
  let body : Except String Unit :=
    match lookupRes with
    | Except.error e => Except.error e
    | Except.ok none => Except.ok ()
    | Except.ok (some row) =>
        if row.embedding_model ≠ cfg.embedding_model ∨
            row.embedding_dimensions ≠ cfg.embedding_dimensions then
          Except.error (mismatchMessage collection_id row.embedding_model row.embedding_dimensions)
        else Except.ok ()
  match body with
  | Except.ok _ => Except.ok ()
  | Except.error e => if containsMarker e then Except.error e else Except.ok ()

/- ===================== C10: task status lookup ===================== -/

/-- Task fields consulted by get_task_status. -/
structure TaskView where
  user_id : String
  status : String
  percentage : Int
  deriving DecidableEq, Repr

/-- Lookup by task id in either task store (in-process map or Redis mirror). -/
def lookupTask : List (String × TaskView) → String → Option TaskView
  | [], _ => none
  | kv :: rest, k => if kv.1 = k then some kv.2 else lookupTask rest k

/-- The Redis fallback branch of IngestionService.get_task_status: return
the task only when its stored user_id equals the requester. -/
def getTaskStatusRedis (redis : List (String × TaskView)) (task_id user_id : String) :
    Option TaskView :=
  match lookupTask redis task_id with
  | some t => if t.user_id = user_id then some t else none
  | none => none

/-- Embedding of IngestionService.get_task_status
(src/ingestion_service/services/ingestion_service.py, lines 231-272): try
the in-process map first; on a hit with matching user_id return it, on a
hit with a different user_id fall through to the Redis mirror (the source
has no early return there), then apply the same user check on the Redis
copy; otherwise none. -/
def getTaskStatus (mem redis : List (String × TaskView)) (task_id user_id : String) :
    Option TaskView :=
  match lookupTask mem task_id with
  | some t =>
      if t.user_id = user_id then some t
      else getTaskStatusRedis redis task_id user_id
  | none => getTaskStatusRedis redis task_id user_id

/-- Embedding of the GET /status/task_id route
(src/ingestion_service/api/ingestion_routes.py, lines 304-326): answer 404
exactly when get_task_status returns nothing, else 200 with the status. -/
def getIngestionStatusHttp (mem redis : List (String × TaskView))
    (task_id user_id : String) : Nat × Option TaskView :=
  match getTaskStatus mem redis task_id user_id with
  | some t => (200, some t)
  | none => (404, none)

/-- C10 witness store: one task owned by user u1. -/
def c10Mem : List (String × TaskView) :=
  [("t1", ⟨"u1", "processing", 10⟩)]

/- ===================== theorems ===================== -/

theorem mem_pySetList (l : List String) : ∀ a, a ∈ pySetList l ↔ a ∈ l := by
  induction l with
  | nil => intro a; simp [pySetList]
  | cons x xs ih =>
      intro a
      simp only [pySetList, List.mem_cons]
      by_cases hx : x ∈ pySetList xs
      · simp only [hx, if_true, ih a]
        constructor
        · intro h
          exact Or.inr h
        · intro h
          rcases h with h | h
          · rw [h]
            exact (ih x).mp hx
          · exact h
      · simp only [hx, if_false, List.mem_cons, ih a]

theorem mem_insertScoreDesc (x : VPoint) (l : List VPoint) (p : VPoint)
    (h : p ∈ insertScoreDesc x l) : p = x ∨ p ∈ l := by
  induction l with
  | nil =>
      simp only [insertScoreDesc, List.mem_singleton] at h
      exact Or.inl h
  | cons y ys ih =>
      simp only [insertScoreDesc] at h
      by_cases hc : y.score ≤ x.score
      · rw [if_pos hc] at h
        rcases List.mem_cons.mp h with h1 | h2
        · exact Or.inl h1
        · exact Or.inr h2
      · rw [if_neg hc] at h
        rcases List.mem_cons.mp h with h1 | h2
        · exact Or.inr (List.mem_cons.mpr (Or.inl h1))
        · rcases ih h2 with h3 | h4
          · exact Or.inl h3
          · exact Or.inr (List.mem_cons.mpr (Or.inr h4))

theorem mem_sortScoreDesc (l : List VPoint) (p : VPoint)
    (h : p ∈ sortScoreDesc l) : p ∈ l := by
  induction l with
  | nil => simp [sortScoreDesc] at h
  | cons x xs ih =>
      simp only [sortScoreDesc] at h
      rcases mem_insertScoreDesc x (sortScoreDesc xs) p h with h1 | h2
      · exact List.mem_cons.mpr (Or.inl h1)
      · exact List.mem_cons.mpr (Or.inr (ih h2))

theorem mem_qdrantSearch (store : List VPoint) (must : List FieldCond) (lim : Nat)
    (th : Option Int) (p : VPoint) (h : p ∈ qdrantSearch store must lim th) :
    p ∈ store ∧ must.all (condMatches p.payload) = true := by
  unfold qdrantSearch at h
  have h1 : p ∈ sortScoreDesc (store.filter (fun q =>
      must.all (condMatches q.payload) && scorePasses th q.score)) :=
    List.mem_of_mem_take h
  have h2 := mem_sortScoreDesc _ _ h1
  have h3 := List.mem_filter.mp h2
  have h4 := h3.2
  rw [Bool.and_eq_true] at h4
  exact ⟨h3.1, h4.1⟩

theorem stringToList_append (a b : String) : (a ++ b).toList = a.toList ++ b.toList := by
  cases a
  cases b
  rfl

theorem leadsChars_self_append (p t : List Char) : leadsChars p (p ++ t) = true := by
  induction p with
  | nil => simp [leadsChars]
  | cons c cs ih => simp [leadsChars, ih]

theorem containsChars_append_left (pat l m : List Char)
    (h : containsChars pat m = true) : containsChars pat (l ++ m) = true := by
  induction l with
  | nil => simpa using h
  | cons c cs ih =>
      simp only [List.cons_append, containsChars, Bool.or_eq_true]
      exact Or.inr ih

theorem containsChars_self_append (pat t : List Char) :
    containsChars pat (pat ++ t) = true := by
  cases pat with
  | nil => cases t <;> simp [containsChars, leadsChars]
  | cons c cs =>
      simp only [List.cons_append, containsChars, Bool.or_eq_true]
      exact Or.inl (by simpa using leadsChars_self_append (c :: cs) t)

theorem containsMarker_mismatchMessage (cid m : String) (d : Int) :
    containsMarker (mismatchMessage cid m d) = true := by
  unfold containsMarker pyInStr mismatchMessage
  simp only [stringToList_append, List.append_assoc]
  apply containsChars_append_left
  apply containsChars_append_left
  apply containsChars_append_left
  apply containsChars_append_left
  apply containsChars_append_left
  apply containsChars_append_left
  apply containsChars_append_left
  exact containsChars_self_append _ _

theorem lookupKey_setKey_self (cfg : List (String × PyVal)) (k : String) (v : PyVal) :
    lookupKey (setKey cfg k v) k = some v := by
  induction cfg with
  | nil => simp [setKey, lookupKey]
  | cons kv rest ih =>
      by_cases h : kv.1 = k
      · simp [setKey, h, lookupKey]
      · simp [setKey, h, lookupKey, ih]

theorem lookupKey_setKey_ne (cfg : List (String × PyVal)) (k k2 : String) (v : PyVal)
    (h : k2 ≠ k) : lookupKey (setKey cfg k v) k2 = lookupKey cfg k2 := by
  induction cfg with
  | nil => simp [setKey, lookupKey, Ne.symm h]
  | cons kv rest ih =>
      by_cases hkv : kv.1 = k
      · simp [setKey, hkv, lookupKey, Ne.symm h]
      · simp [setKey, hkv, lookupKey, ih]

theorem pyOrDefaultCols_ne_nil (dc : Option (List String)) : pyOrDefaultCols dc ≠ [] := by
  cases dc with
  | none => simp [pyOrDefaultCols]
  | some l =>
      by_cases h : l = []
      · simp [pyOrDefaultCols, h]
      · simp [pyOrDefaultCols, h]

theorem normalizeQueryConfig_template (cfg : List (String × PyVal)) (s : String)
    (hs : s ≠ "") :
    ∃ v, lookupKey (normalizeQueryConfig cfg (some s)) "system_prompt_template" = some v ∧
      pyFalsy v = false := by
  simp only [normalizeQueryConfig]
  by_cases hd : needsPromptDefault
      (cfg.filter (fun kv => queryConfigAllowed.contains kv.1)) = true
  · rw [if_pos hd, lookupKey_setKey_self]
    exact ⟨PyVal.vStr ((some s).getD ""), rfl, by simp [Option.getD, pyFalsy, hs]⟩
  · rw [if_neg hd]
    unfold needsPromptDefault at hd
    cases hlook : lookupKey (cfg.filter (fun kv => queryConfigAllowed.contains kv.1))
        "system_prompt_template" with
    | none =>
        rw [hlook] at hd
        simp at hd
    | some v =>
        rw [hlook] at hd
        exact ⟨v, rfl, by simpa using hd⟩

theorem normalizeRagConfig_cols (rcfg : List (String × PyVal)) (dc : Option (List String)) :
    ∃ v, lookupKey (normalizeRagConfig rcfg dc) "collection_ids" = some v ∧
      pyFalsy v = false := by
  have main : ∀ N : List (String × PyVal),
      ∃ v, lookupKey (if needsColsDefault N then
          setKey N "collection_ids" (PyVal.vList (pyOrDefaultCols dc)) else N)
        "collection_ids" = some v ∧ pyFalsy v = false := by
    intro N
    by_cases hd : needsColsDefault N = true
    · rw [if_pos hd, lookupKey_setKey_self]
      exact ⟨PyVal.vList (pyOrDefaultCols dc), rfl, by simp [pyFalsy, pyOrDefaultCols_ne_nil dc]⟩
    · rw [if_neg hd]
      unfold needsColsDefault at hd
      cases hlook : lookupKey N "collection_ids" with
      | none =>
          rw [hlook] at hd
          simp at hd
      | some v =>
          rw [hlook] at hd
          exact ⟨v, rfl, by simpa using hd⟩
  simp only [normalizeRagConfig]
  obtain ⟨v, hv, hfv⟩ := main (rcfg.filter (fun kv => ragConfigAllowed.contains kv.1))
  by_cases he : (lookupKey (if needsColsDefault
      (rcfg.filter (fun kv => ragConfigAllowed.contains kv.1)) then
        setKey (rcfg.filter (fun kv => ragConfigAllowed.contains kv.1)) "collection_ids"
          (PyVal.vList (pyOrDefaultCols dc))
      else rcfg.filter (fun kv => ragConfigAllowed.contains kv.1)) "encoding_format").isNone
  · rw [if_pos he]
    refine ⟨v, ?_, hfv⟩
    rw [lookupKey_setKey_ne _ _ _ _ (by decide)]
    exact hv
  · rw [if_neg he]
    exact ⟨v, hv, hfv⟩

theorem lookupTask_mem (l : List (String × TaskView)) (k : String) (t : TaskView)
    (h : lookupTask l k = some t) : (k, t) ∈ l := by
  induction l with
  | nil => simp [lookupTask] at h
  | cons kv rest ih =>
      simp only [lookupTask] at h
      by_cases hk : kv.1 = k
      · rw [if_pos hk] at h
        have h2 : kv.2 = t := Option.some.inj h
        have h3 : kv = (k, t) := by
          cases kv
          simp_all
        rw [List.mem_cons]
        exact Or.inl h3.symm
      · rw [if_neg hk] at h
        exact List.mem_cons.mpr (Or.inr (ih h))

/- ===================== claim theorems ===================== -/

/-- C1: the claim says the happy-path POST /ingest reaches COMPLETED with
percentage 100 and that _process_document_async successfully invokes
document_handler.process_document and embedding_handler.generate_embeddings.
The admission part does hold (response status PROCESSING, generated
collection_id of the form col_ plus 8 hex digits), but the pipeline cannot
succeed: the call site passes process_document two positional arguments
while its signature requires five, and generate_embeddings is called with
the keyword agent_ids while its parameter is agent_id, so the task always
lands in the except branch with status FAILED and percentage 0. -/
theorem C1_happy_path_raises_type_error :
    (ingestDocumentResponse none "ab12cd34").status = IngStatus.processing ∧
    (ingestDocumentResponse none "ab12cd34").collection_id = "col_ab12cd34" ∧
    pyBindOk processDocumentParams processDocumentCallPositional
      processDocumentCallKeywords = false ∧
    pyBindOk generateEmbeddingsParams 0 generateEmbeddingsCallKeywords = false ∧
    (processDocumentAsync initialTask 1).status = IngStatus.failed ∧
    (processDocumentAsync initialTask 1).percentage = 0 ∧
    (processDocumentAsync initialTask 1).status ≠ IngStatus.completed := by
  decide

/-- C2: every filter that reaches the driver search carries both the
tenant_id equality and the agent membership condition (the query-service
must conditions contain both), and a call without an agent_id fails (raises)
instead of searching: the query-service search raises ValueError on an
empty agent_id, and search_by_agent raises ValidationError while building
its agent condition — MatchAny handed the bare agent_id string — on every
call, the empty agent_id included, so it never searches at all. -/
theorem C2_search_requires_agent (t a : String) (cs ds : List String)
    (store : List VPoint) (k : Nat) (th : Int) :
    FieldCond.mk "tenant_id" (MatchCond.value t) ∈ qsMustConds t a ds ∧
    FieldCond.mk "agent_ids" (MatchCond.anyOfList [a]) ∈ qsMustConds t a ds ∧
    (a = "" → qsSearch store t a cs ds k th =
      Except.error "agent_id is required for vector search") ∧
    (∃ e, searchByAgent store t a cs k = Except.error e) := by
  refine ⟨?_, ?_, ?_, ⟨_, rfl⟩⟩
  · unfold qsMustConds
    by_cases h : ds = [] <;> simp [h]
  · unfold qsMustConds
    by_cases h : ds = [] <;> simp [h]
  · intro ha
    simp [qsSearch, ha]

theorem C2_search_requires_agent_witness :
    qsSearch [] "t" "" [] [] 5 0 = Except.error "agent_id is required for vector search" ∧
    (∃ e, searchByAgent [] "t" "" [] 5 = Except.error e) :=
  ⟨(C2_search_requires_agent "t" "" [] [] [] 5 0).2.2.1 rfl,
   (C2_search_requires_agent "t" "" [] [] [] 5 0).2.2.2⟩

/-- C3 counterexample: the query-service search given the non-empty
collection_ids list [mine] returns a hit whose payload collection_id is
other, because the collection filter is commented out in the source. -/
theorem C3_counterexample :
    qsSearch [c3Stray] "t" "a" ["mine"] [] 5 0 = Except.ok [c3Stray] ∧
    c3Stray.payload.collection_id ∉ (["mine"] : List String) :=
  ⟨rfl, by decide⟩

/-- C3 amended: given a non-empty collection_ids list, the query-service
search adds no collection_id condition to its filter (the condition is
commented out in the source) and can return hits outside the list, as the
counterexample shows; search_by_agent has the append of the collection_id
condition in its source text, but its filter construction raises
ValidationError at the agent condition before that point on every call, so
it never performs a search and never returns any hit — in particular none
outside the list. -/
theorem C3_collection_filter_amended (t a : String) (cs ds : List String)
    (store : List VPoint) (lim : Nat) (c : MatchCond) :
    FieldCond.mk "collection_id" c ∉ qsMustConds t a ds ∧
    (∃ e, sbaMustConds t a cs = Except.error e) ∧
    (∃ e, searchByAgent store t a cs lim = Except.error e) := by
  refine ⟨?_, ⟨_, rfl⟩, ⟨_, rfl⟩⟩
  unfold qsMustConds
  by_cases h : ds = [] <;> simp [h]

/-- C4: the claim says stored equals the number of chunks actually upserted,
stored plus failed equals the number of input chunks, and stored is never
negative.  On the input c4Chunks (one chunk with an embedding, one without)
the code returns stored 0 and failed 1 although one point was upserted and
two chunks came in; with a failing upsert it returns stored -1.  The claim
matches the spec and the intent visible in the success log line, so this is
a slip in store_chunks: failed_chunks also counts chunks that never became
points, yet is subtracted from len(points). -/
theorem C4_store_counts_bug :
    storeChunks c4Chunks true = ⟨0, 1, ["c2"]⟩ ∧
    (storeChunks c4Chunks true).stored + ((storeChunks c4Chunks true).failed : Int) ≠
      (c4Chunks.length : Int) ∧
    (storeChunks c4Chunks false).stored = -1 := by
  decide

/-- C5: the claim says a relational write failure while persisting the
documents_rag row after a successful vector upsert ends the task FAILED with
the error recorded, and that a task never ends COMPLETED after a storage
failure.  The code contradicts it: _persist_document_metadata swallows every
exception after logging, so the callback continues and marks the task
COMPLETED with percentage 100 and no error.  Since the spec explicitly
requires StorageError to fail the task, this is a code bug. -/
theorem C5_metadata_failure_still_completes :
    persistDocumentMetadata (Except.error "relational insert failed") = Except.ok () ∧
    handleEmbeddingCallback c5Task (Except.ok ⟨1, 0, []⟩)
        (Except.error "relational insert failed") =
      ⟨IngStatus.completed, 100, 1, 1, none⟩ :=
  ⟨rfl, rfl⟩

/-- C6 counterexample: a row whose query_config is empty and whose stored
system_prompt is null normalizes to an empty system_prompt_template, so the
template is not always non-empty. -/
theorem C6_counterexample :
    lookupKey (normalizeQueryConfig [] none) "system_prompt_template" =
      some (PyVal.vStr "") ∧
    pyFalsy (PyVal.vStr "") = true := by
  decide

/-- C6 amended: after normalization the template is always present, and it
is non-empty whenever the stored system_prompt is non-empty (the fallback is
system_prompt or the empty string, so a null or empty stored prompt yields
an empty template); rag_config.collection_ids is always present and
non-falsy; the default-config error path returns a non-empty stock prompt
and the collection list [default]. -/
theorem C6_normalization_amended (cfg rcfg : List (String × PyVal)) (sp : Option String)
    (s : String) (dc : Option (List String)) (hsp : sp = some s) (hs : s ≠ "") :
    (∃ v, lookupKey (normalizeQueryConfig cfg sp) "system_prompt_template" = some v ∧
      pyFalsy v = false) ∧
    (∃ v, lookupKey (normalizeRagConfig rcfg dc) "collection_ids" = some v ∧
      pyFalsy v = false) ∧
    defaultQueryPromptTemplate ≠ "" ∧
    defaultConfigCollectionIds ≠ [] := by
  subst hsp
  exact ⟨normalizeQueryConfig_template cfg s hs, normalizeRagConfig_cols rcfg dc,
    by decide, by decide⟩

theorem C6_normalization_amended_witness :
    (∃ v, lookupKey (normalizeQueryConfig [] (some "You are helpful."))
        "system_prompt_template" = some v ∧ pyFalsy v = false) ∧
    (∃ v, lookupKey (normalizeRagConfig [] (some ["default"])) "collection_ids" = some v ∧
      pyFalsy v = false) ∧
    defaultQueryPromptTemplate ≠ "" ∧
    defaultConfigCollectionIds ≠ [] :=
  C6_normalization_amended [] [] (some "You are helpful.") "You are helpful."
    (some ["default"]) rfl (by decide)

/-- C7 counterexample: starting from the empty agent list, remove [a]
followed by add [a] yields [a], not the original empty list, so
add(A) after remove(A) is not the identity. -/
theorem C7_counterexample :
    applyAgentsOp2 "remove" ["a"] "add" ["a"] [] = some ["a"] ∧
    (["a"] : List String) ≠ ([] : List String) := by
  decide

/-- C7 amended: set(B) after set(A) equals set(B) alone, exactly as claimed;
add(A) after remove(A) is not the identity in general: its result is the
union of the original list and A at membership level (so it restores the
original agent set precisely when every element of A was already present). -/
theorem C7_agent_ops_amended (L A B : List String) :
    applyAgentsOp2 "set" A "set" B L = applyAgentsOp "set" L B ∧
    ∃ r, applyAgentsOp2 "remove" A "add" A L = some r ∧
      ∀ x, x ∈ r ↔ x ∈ L ∨ x ∈ A := by
  constructor
  · rfl
  · refine ⟨pySetList (L.filter (fun a => a ∉ A) ++ A), rfl, ?_⟩
    intro x
    simp only [mem_pySetList, List.mem_append, List.mem_filter, decide_eq_true_eq]
    constructor
    · intro h
      rcases h with ⟨h1, -⟩ | h2
      · exact Or.inl h1
      · exact Or.inr h2
    · intro h
      by_cases hx : x ∈ A
      · exact Or.inr hx
      · rcases h with h | h
        · exact Or.inl ⟨h, hx⟩
        · exact absurd h hx

/-- C8: for every inbound chat message the handler chooses mode advance
exactly when the request carries tools (else simple), first delivers a
chat_processing progress event carrying that mode to the session, and then
dispatches exactly one action with action_type execution.chat.<mode> and
callback_action_type orchestrator.chat.response. -/
theorem C8_chat_dispatch (session_id task_id : String) (tools : List String) :
    (tools ≠ [] →
      processChatMessage session_id task_id tools =
        [OrchStep.wsSend session_id "chat_processing" "advance" task_id,
         OrchStep.busSend
           ⟨"execution.chat.advance", some "orchestrator.chat.response", task_id⟩
           "orchestrator.chat.response"]) ∧
    (tools = [] →
      processChatMessage session_id task_id tools =
        [OrchStep.wsSend session_id "chat_processing" "simple" task_id,
         OrchStep.busSend
           ⟨"execution.chat.simple", some "orchestrator.chat.response", task_id⟩
           "orchestrator.chat.response"]) := by
  constructor
  · intro h
    have hm : chatMode tools = "advance" := by simp [chatMode, h]
    unfold processChatMessage executeChatSteps
    rw [hm]
    rfl
  · intro h
    have hm : chatMode tools = "simple" := by simp [chatMode, h]
    unfold processChatMessage executeChatSteps
    rw [hm]
    rfl

theorem C8_chat_dispatch_witness :
    processChatMessage "s1" "t1" ["tool1"] =
      [OrchStep.wsSend "s1" "chat_processing" "advance" "t1",
       OrchStep.busSend
         ⟨"execution.chat.advance", some "orchestrator.chat.response", "t1"⟩
         "orchestrator.chat.response"] :=
  (C8_chat_dispatch "s1" "t1" ["tool1"]).1 (by decide)

/-- C9: a lookup failure whose message does not carry the mismatch marker is
swallowed after a warning and admission proceeds; a missing row admits; an
actual embedding_model or embedding_dimensions mismatch raises the marker
message and aborts admission; a matching row admits.  The one-model-per-
collection invariant is therefore enforced only when the relational read
succeeds. -/
theorem C9_collection_consistency (e : String) (cfg : RagCfgReq) (row : RagRow)
    (cid : String) (he : containsMarker e = false) :
    validateCollectionConsistency (Except.error e) cfg cid = Except.ok () ∧
    validateCollectionConsistency (Except.ok none) cfg cid = Except.ok () ∧
    (row.embedding_model ≠ cfg.embedding_model ∨
        row.embedding_dimensions ≠ cfg.embedding_dimensions →
      validateCollectionConsistency (Except.ok (some row)) cfg cid =
        Except.error (mismatchMessage cid row.embedding_model row.embedding_dimensions)) ∧
    (row.embedding_model = cfg.embedding_model →
      row.embedding_dimensions = cfg.embedding_dimensions →
      validateCollectionConsistency (Except.ok (some row)) cfg cid = Except.ok ()) := by
  refine ⟨?_, rfl, ?_, ?_⟩
  · simp [validateCollectionConsistency, he]
  · intro hmis
    simp only [validateCollectionConsistency]
    rw [if_pos hmis]
    simp [containsMarker_mismatchMessage]
  · intro h1 h2
    simp [validateCollectionConsistency, h1, h2]

theorem C9_collection_consistency_witness :
    containsMarker "connection refused" = false ∧
    validateCollectionConsistency (Except.error "connection refused")
      ⟨"text-embedding-3-small", 1536⟩ "col_y" = Except.ok () ∧
    validateCollectionConsistency (Except.ok (some ⟨"model-a", 1536⟩))
      ⟨"text-embedding-3-small", 1536⟩ "col_y" =
      Except.error (mismatchMessage "col_y" "model-a" 1536) :=
  ⟨by decide,
   (C9_collection_consistency "connection refused" ⟨"text-embedding-3-small", 1536⟩
     ⟨"model-a", 1536⟩ "col_y" (by decide)).1,
   (C9_collection_consistency "connection refused" ⟨"text-embedding-3-small", 1536⟩
     ⟨"model-a", 1536⟩ "col_y" (by decide)).2.2.1 (Or.inl (by decide))⟩

/-- C10: get_task_status returns a task only when a copy with that id exists
in the in-process map or in the Redis mirror and that copy's stored user_id
equals the requester; otherwise it returns nothing and the HTTP status
endpoint answers 404 exactly as if the task did not exist. -/
theorem C10_status_scoped (mem redis : List (String × TaskView)) (tid uid : String) :
    (∀ t, getTaskStatus mem redis tid uid = some t →
        t.user_id = uid ∧ ((tid, t) ∈ mem ∨ (tid, t) ∈ redis)) ∧
    ((getIngestionStatusHttp mem redis tid uid).1 = 404 ↔
        getTaskStatus mem redis tid uid = none) := by
  constructor
  · intro t h
    have hredis : getTaskStatusRedis redis tid uid = some t →
        t.user_id = uid ∧ ((tid, t) ∈ mem ∨ (tid, t) ∈ redis) := by
      intro h2
      cases hlook : lookupTask redis tid with
      | none =>
          simp only [getTaskStatusRedis, hlook] at h2
          exact absurd h2 (by simp)
      | some t2 =>
          simp only [getTaskStatusRedis, hlook] at h2
          by_cases hu : t2.user_id = uid
          · rw [if_pos hu] at h2
            have h3 : t2 = t := Option.some.inj h2
            subst h3
            exact ⟨hu, Or.inr (lookupTask_mem redis tid t2 hlook)⟩
          · rw [if_neg hu] at h2
            exact absurd h2 (by simp)
    cases hm : lookupTask mem tid with
    | none =>
        simp only [getTaskStatus, hm] at h
        exact hredis h
    | some t1 =>
        simp only [getTaskStatus, hm] at h
        by_cases hu : t1.user_id = uid
        · rw [if_pos hu] at h
          have h3 : t1 = t := Option.some.inj h
          subst h3
          exact ⟨hu, Or.inl (lookupTask_mem mem tid t1 hm)⟩
        · rw [if_neg hu] at h
          exact hredis h
  · unfold getIngestionStatusHttp
    cases hg : getTaskStatus mem redis tid uid with
    | some t => simp
    | none => simp

theorem C10_status_scoped_witness :
    ((⟨"u1", "processing", 10⟩ : TaskView).user_id = "u1" ∧
      (("t1", (⟨"u1", "processing", 10⟩ : TaskView)) ∈ c10Mem ∨
       ("t1", (⟨"u1", "processing", 10⟩ : TaskView)) ∈ ([] : List (String × TaskView)))) ∧
    ((getIngestionStatusHttp c10Mem [] "t1" "u2").1 = 404 ↔
      getTaskStatus c10Mem [] "t1" "u2" = none) :=
  ⟨(C10_status_scoped c10Mem [] "t1" "u1").1 ⟨"u1", "processing", 10⟩ rfl,
   (C10_status_scoped c10Mem [] "t1" "u2").2⟩

end Nooble
